import Mathlib

/-!
Verification development for the `telesync.graphics` module
(`src/py/telesync/graphics.py`): SVG path builder, turtle graphics,
graphical element model, and scene/redraw protocol.

Modeling conventions:
* Python `float` values are modeled as exact rationals (`ℚ`); IEEE-754
  artifacts (signed zero, representation error of decimal literals) are not
  modeled.  Python `int` values are modeled as `ℤ`.
* Trigonometric claims (vector rotation) are stated over `ℝ`.
* Python dicts are modeled as association lists preserving insertion order.
* The packing substrate (`telesync/core.py`: `data`, `Ref`, `Expando`,
  `expando_to_dict`) and the stdlib `json.dumps` are not under `src/`; the
  definitions modeling them carry a `Modelled from the spec:` doc comment.
-/

namespace TS

/-- Numeric operand of a path command as passed from Python: either a Python
`int` or a Python `float` (modeled as an exact rational). -/
inductive PyNum where
| pint : ℤ → PyNum
| pfloat : ℚ → PyNum
deriving DecidableEq

/-- Round a rational to the nearest integer with ties going to the even
integer.  This models the rounding used by Python `round` on floats
(banker's rounding); `round(x, 2)` is modeled as
`roundHalfToEven (x * 100) / 100`. -/
def roundHalfToEven (q : ℚ) : ℤ :=
  let den : ℤ := (q.den : ℤ)
  let n : ℤ := q.num.ediv den
  let twice : ℤ := 2 * (q.num - n * den)
  if twice < den then n
  else if den < twice then n + 1
  else if n.emod 2 = 0 then n else n + 1

/-- Decimal rendering of the rational `n / 100` in the style of Python
`str` on a float that is an exact multiple of `1/100`: always at least one
fractional digit (so integral values end in `.0`), trailing zero of the
hundredths digit dropped (`3.5`, not `3.50`). -/
def floatStr2 (n : ℤ) : String :=
  let sign := if n < 0 then "-" else ""
  let m := n.natAbs
  let ip := m / 100
  let fp := m % 100
  let frac :=
    if fp = 0 then "0"
    else if fp % 10 = 0 then toString (fp / 10)
    else if fp < 10 then "0" ++ toString fp
    else toString fp
  sign ++ toString ip ++ "." ++ frac

/-- Serialization of one numeric operand by `Path._d`
(`graphics.py` line 210): `str(round(arg, 2) if isinstance(arg, float) else arg)`.
A float is rounded to 2 decimal digits and rendered; an int is rendered by
plain `str`. -/
def pyNumStr : PyNum → String
| .pint n => toString n
| .pfloat q => floatStr2 (roundHalfToEven (q * 100))

/-- The `Path` builder (`graphics.py` lines 199-219).  `cmds` models the
private list `self.__d` of already-serialized tokens. -/
structure Path where
  cmds : List String
deriving DecidableEq

/-- The `Path.__init__` constructor: `self.__d = []`. -/
def Path.empty : Path := ⟨[]⟩

/-- The private helper `Path._d` (lines 207-211): append the command code,
then the string form of every operand, and return the builder. -/
def Path._d (p : Path) (command : String) (args : List PyNum) : Path :=
  ⟨p.cmds ++ command :: args.map pyNumStr⟩

/-- The serializer `Path.d` (lines 213-219): `' '.join(self.__d)`.  It reads
the token list without mutating it, so it is a pure function of the
builder state. -/
def Path.d (p : Path) : String := String.intercalate " " p.cmds

/-- Absolute moveto `Path.M` (line 242). -/
def Path.M (p : Path) (x y : PyNum) : Path := p._d "M" [x, y]

/-- Relative moveto `Path.m` (line 255). -/
def Path.m (p : Path) (x y : PyNum) : Path := p._d "m" [x, y]

/-- Absolute closepath `Path.Z` (line 265). -/
def Path.Z (p : Path) : Path := p._d "Z" []

/-- Relative closepath `Path.z` (line 275). -/
def Path.z (p : Path) : Path := p._d "z" []

/-- Absolute lineto `Path.L` (line 288). -/
def Path.L (p : Path) (x y : PyNum) : Path := p._d "L" [x, y]

/-- Relative lineto `Path.l` (line 301). -/
def Path.l (p : Path) (x y : PyNum) : Path := p._d "l" [x, y]

/-- Absolute horizontal lineto `Path.H` (line 313). -/
def Path.H (p : Path) (x : PyNum) : Path := p._d "H" [x]

/-- Relative horizontal lineto `Path.h` (line 325). -/
def Path.h (p : Path) (x : PyNum) : Path := p._d "h" [x]

/-- Absolute vertical lineto `Path.V` (line 337). -/
def Path.V (p : Path) (y : PyNum) : Path := p._d "V" [y]

/-- Relative vertical lineto `Path.v` (line 349). -/
def Path.v (p : Path) (y : PyNum) : Path := p._d "v" [y]

/-- Absolute cubic Bezier `Path.C` (line 367). -/
def Path.C (p : Path) (x1 y1 x2 y2 x y : PyNum) : Path :=
  p._d "C" [x1, y1, x2, y2, x, y]

/-- Relative cubic Bezier `Path.c` (line 385). -/
def Path.c (p : Path) (x1 y1 x2 y2 x y : PyNum) : Path :=
  p._d "c" [x1, y1, x2, y2, x, y]

/-- Absolute smooth cubic Bezier `Path.S` (line 402). -/
def Path.S (p : Path) (x2 y2 x y : PyNum) : Path := p._d "S" [x2, y2, x, y]

/-- Relative smooth cubic Bezier `Path.s` (line 419). -/
def Path.s (p : Path) (x2 y2 x y : PyNum) : Path := p._d "s" [x2, y2, x, y]

/-- Absolute quadratic Bezier `Path.Q` (line 434). -/
def Path.Q (p : Path) (x1 y1 x y : PyNum) : Path := p._d "Q" [x1, y1, x, y]

/-- Relative quadratic Bezier `Path.q` (line 449). -/
def Path.q (p : Path) (x1 y1 x y : PyNum) : Path := p._d "q" [x1, y1, x, y]

/-- Absolute smooth quadratic Bezier `Path.T` (line 463). -/
def Path.T (p : Path) (x y : PyNum) : Path := p._d "T" [x, y]

/-- Relative smooth quadratic Bezier `Path.t` (line 477). -/
def Path.t (p : Path) (x y : PyNum) : Path := p._d "t" [x, y]

/-- Absolute elliptical arc `Path.A` (line 500): the two boolean flags are
passed on as the Python ints `1 if large_arc else 0` and
`1 if sweep else 0`. -/
def Path.A (p : Path) (rx ry x_axis_rotation : PyNum) (large_arc sweep : Bool)
    (x y : PyNum) : Path :=
  p._d "A" [rx, ry, x_axis_rotation, .pint (if large_arc then 1 else 0),
    .pint (if sweep then 1 else 0), x, y]

/-- Relative elliptical arc `Path.a` (line 523). -/
def Path.a (p : Path) (rx ry x_axis_rotation : PyNum) (large_arc sweep : Bool)
    (x y : PyNum) : Path :=
  p._d "a" [rx, ry, x_axis_rotation, .pint (if large_arc then 1 else 0),
    .pint (if sweep then 1 else 0), x, y]

/-- The 2D vector `_Vec` (lines 535-563) over the rationals, as used by the
turtle for positions and headings (Python floats modeled as rationals). -/
structure Vec where
  x : ℚ
  y : ℚ
deriving DecidableEq

/-- Vector addition `_Vec.__add__` (line 544). -/
def Vec.add (v w : Vec) : Vec := ⟨v.x + w.x, v.y + w.y⟩

/-- Scalar multiplication, the non-vector branch of `_Vec.__mul__`
(line 551): `_Vec(self.x * v, self.y * v)`. -/
def Vec.smul (v : Vec) (k : ℚ) : Vec := ⟨v.x * k, v.y * k⟩

/-- The 2D vector `_Vec` over the reals, for the trigonometric rotation
claims (Python floats modeled as reals). -/
@[ext]
structure VecR where
  x : ℝ
  y : ℝ

/-- Rotation `_Vec.rotate` (lines 559-563): build the perpendicular vector
`p = (-y, x)` and return `(x*cos a + p.x*sin a, y*cos a + p.y*sin a)`. -/
noncomputable def VecR.rotate (v : VecR) (a : ℝ) : VecR :=
  let p : VecR := ⟨-v.y, v.x⟩
  let c := Real.cos a
  let s := Real.sin a
  ⟨v.x * c + p.x * s, v.y * c + p.y * s⟩

/-- The turtle state (`Turtle.__init__`, lines 573-585): position `_p`,
orientation vector `_a`, pen flag `_pd`, path accumulator `_path`. -/
structure Turtle where
  _p : Vec
  _a : Vec
  _pd : Bool
  _path : Path
deriving DecidableEq

/-- The `Turtle.__init__` constructor with the orientation vector passed
explicitly: the source computes `_a = (cos(radians(degrees)), sin(radians(degrees)))`,
which is not representable for arbitrary angles in the rational model, so
the constructed heading `(hx, hy)` is a parameter here.  The pen starts up
and the path starts empty; no path command is emitted. -/
def Turtle.mkInit (x y hx hy : ℚ) : Turtle := ⟨⟨x, y⟩, ⟨hx, hy⟩, false, Path.empty⟩

/-- The `Turtle.__init__` constructor for `degrees = 0`: `radians(0) = 0`,
`cos(0) = 1.0` and `sin(0) = 0.0` exactly (also in IEEE doubles), so the
heading is exactly `(1, 0)`. -/
def turtle0 (x y : ℚ) : Turtle := Turtle.mkInit x y 1 0

/-- The private helper `Turtle._draw` (lines 587-592): emit `L` at the
current position if the pen is down, else `M`.  The coordinates are Python
floats, so both are serialized through the float branch of `Path._d`. -/
def Turtle._draw (t : Turtle) : Turtle :=
  if t._pd then { t with _path := t._path.L (.pfloat t._p.x) (.pfloat t._p.y) }
  else { t with _path := t._path.M (.pfloat t._p.x) (.pfloat t._p.y) }

/-- The private helper `Turtle._move` (lines 594-596):
`self._p = self._p + self._a * d` followed by `self._draw()`. -/
def Turtle._move (t : Turtle) (d : ℚ) : Turtle :=
  ({ t with _p := t._p.add (t._a.smul d) })._draw

/-- Move forward, `Turtle.f` (line 609). -/
def Turtle.f (t : Turtle) (distance : ℚ) : Turtle := t._move distance

/-- Move backward, `Turtle.b` (line 618): `self._move(-distance)`. -/
def Turtle.b (t : Turtle) (distance : ℚ) : Turtle := t._move (-distance)

/-- Pen up, `Turtle.pu` (lines 638-649): if `close` is truthy, first emit a
`Z` command; then clear the pen flag.  The truthiness of the Python `any`
typed argument is modeled as a `Bool`. -/
def Turtle.pu (t : Turtle) (close : Bool) : Turtle :=
  { t with _path := if close then t._path.Z else t._path, _pd := false }

/-- Pen down, `Turtle.pd` (lines 651-658): set the pen flag, no emission. -/
def Turtle.pd (t : Turtle) : Turtle := { t with _pd := true }

/-- Teleport, `Turtle.p` (lines 660-669): set the position, then `_draw`. -/
def Turtle.p (t : Turtle) (x y : ℚ) : Turtle := ({ t with _p := ⟨x, y⟩ })._draw

/-- The serializer `Turtle.d` (lines 682-688): delegate to `Path.d`. -/
def Turtle.d (t : Turtle) : String := t._path.d

/-- Scalar attribute value of a graphical element: Python string, int,
float, or bool. -/
inductive AttrVal where
| s : String → AttrVal
| i : ℤ → AttrVal
| f : ℚ → AttrVal
| b : Bool → AttrVal
deriving DecidableEq

/-- Lookup of a key in a Python dict modeled as an association list. -/
def dictGet (d : List (String × AttrVal)) (k : String) : Option AttrVal :=
  match d with
  | [] => none
  | kv :: rest => if kv.1 == k then some kv.2 else dictGet rest k

/-- Assignment `d[k] = v` on a Python dict modeled as an association list:
an existing key keeps its position and gets the new value, a new key is
appended at the end (Python dict insertion-order semantics; a dict never
holds a key twice, so replacing the first occurrence is exact). -/
def dictSet : List (String × AttrVal) → String → AttrVal →
    List (String × AttrVal)
  | [], k, v => [(k, v)]
  | kv :: rest, k, v =>
    if kv.1 == k then (k, v) :: rest else kv :: dictSet rest k v

/-- Modelled from the spec: the dynamic attribute container `Expando` from
the packing substrate (`telesync/core.py`, not under `src/`): a mapping-like
value holding the named attributes of a graphical element. -/
structure Expando where
  attrs : List (String × AttrVal)
deriving DecidableEq

/-- The element builder `_el` (lines 56-58): stamp the type discriminator
into the attribute dict under the reserved key `_t`. -/
def _el (t : String) (d : List (String × AttrVal)) : Expando :=
  ⟨dictSet d "_t" (.s t)⟩

/-- The discriminator table `_element_types` (lines 61-72), in source
order. -/
def _element_types : List (String × String) :=
  [("a", "arc"), ("c", "circle"), ("e", "ellipse"), ("i", "image"),
   ("l", "line"), ("p", "path"), ("pg", "polygon"), ("pl", "polyline"),
   ("r", "rect"), ("t", "text")]

/-- The type query `type_of` (lines 75-82):
`_element_types.get(element['_t'], None)`; an unrecognized or missing
discriminator yields `none`. -/
def type_of (element : Expando) : Option String :=
  match dictGet element.attrs "_t" with
  | some (.s t) => _element_types.lookup t
  | _ => none

/-- The shape constructor `arc` (line 96): the four required geometric
parameters first, then the keyword attributes, then the discriminator. -/
def arc (r1 r2 a1 a2 : AttrVal) (kwargs : List (String × AttrVal)) : Expando :=
  _el "a" ([("r1", r1), ("r2", r2), ("a1", a1), ("a2", a2)] ++ kwargs)

/-- The shape constructor `circle` (line 107). -/
def circle (kwargs : List (String × AttrVal)) : Expando := _el "c" kwargs

/-- The shape constructor `ellipse` (line 118). -/
def ellipse (kwargs : List (String × AttrVal)) : Expando := _el "e" kwargs

/-- The shape constructor `image` (line 129). -/
def image (kwargs : List (String × AttrVal)) : Expando := _el "i" kwargs

/-- The shape constructor `line` (line 140). -/
def line (kwargs : List (String × AttrVal)) : Expando := _el "l" kwargs

/-- The shape constructor `path` (line 151). -/
def path (kwargs : List (String × AttrVal)) : Expando := _el "p" kwargs

/-- The shape constructor `polygon` (line 162). -/
def polygon (kwargs : List (String × AttrVal)) : Expando := _el "pg" kwargs

/-- The shape constructor `polyline` (line 173). -/
def polyline (kwargs : List (String × AttrVal)) : Expando := _el "pl" kwargs

/-- The shape constructor `rect` (line 184). -/
def rect (kwargs : List (String × AttrVal)) : Expando := _el "r" kwargs

/-- The shape constructor `text` (line 196): the required content string
first, then the keyword attributes. -/
def text (content : String) (kwargs : List (String × AttrVal)) : Expando :=
  _el "t" (("text", .s content) :: kwargs)

/-- Modelled from the spec: JSON encoding of one scalar attribute value by
the stdlib `json.dumps` (external).  Strings are quoted (escape sequences
are not modeled), ints rendered by `str`, bools as `true`/`false`, floats in
the fixed 2-decimal style (exact shortest-roundtrip float formatting is not
modeled). -/
def jsonAttr : AttrVal → String
| .s s => "\"" ++ s ++ "\""
| .i n => toString n
| .f q => floatStr2 (roundHalfToEven (q * 100))
| .b true => "true"
| .b false => "false"

/-- Modelled from the spec: JSON encoding of an attribute mapping by the
stdlib `json.dumps` (external), with the default separators. -/
def jsonDumps (d : List (String × AttrVal)) : String :=
  "\x7b" ++
    String.intercalate ", "
      (d.map fun kv => "\"" ++ kv.1 ++ "\": " ++ jsonAttr kv.2) ++
    "\x7d"

/-- Modelled from the spec: `expando_to_dict` from the packing substrate
(`telesync/core.py`, not under `src/`): converts the dynamic attribute
container to a plain key-to-value mapping for JSON encoding. -/
def expando_to_dict (e : Expando) : List (String × AttrVal) := e.attrs

/-- One row of a scene table: the base-attributes column `d` and the
override column `o`, both JSON strings (empty `o` means no override). -/
structure Row where
  d : String
  o : String
deriving DecidableEq

/-- Modelled from the spec: the keyed table built by the packing substrate
(`data(fields=..., rows=...)` in `telesync/core.py`, not under `src/`): a
space-separated column-name string and one row per key, in insertion
order. -/
structure Data where
  fields : String
  rows : List (String × Row)
deriving DecidableEq

/-- The scene assembler `scene` (lines 21-29):
`data(fields='d o', rows={k: [json.dumps(expando_to_dict(v)), ''] ...})` —
one row per keyword, base column sets the JSON of the element attributes,
override column set to the the empty string. -/
def scene (kwargs : List (String × Expando)) : Data :=
  ⟨"d o", kwargs.map fun kv => (kv.1, ⟨jsonDumps (expando_to_dict kv.2), ""⟩)⟩

/-- The redraw instruction `draw` (lines 32-41): `element['o'] = json.dumps(kwargs)`
on the referenced row, returning the reference unchanged.  The opaque
element reference (`Ref` from `telesync/core.py`, not under `src/`) is
modelled from the spec as the key of the addressed row, with the scene
table passed and returned explicitly to make the mutation visible. -/
def draw (t : Data) (element : String) (kwargs : List (String × AttrVal)) :
    Data × String :=
  ({ t with rows := t.rows.map fun r =>
      if r.1 == element then (r.1, ⟨r.2.d, jsonDumps kwargs⟩) else r },
   element)

/-- The redraw-cancel instruction `reset` (lines 44-53): `element['o'] = ''`
on the referenced row, returning the reference unchanged; same reference
modeling as `draw`. -/
def reset (t : Data) (element : String) : Data × String :=
  ({ t with rows := t.rows.map fun r =>
      if r.1 == element then (r.1, ⟨r.2.d, ""⟩) else r },
   element)

/-- Helper: the token list built by a fold of `Path._d` calls is the initial
token list followed by each command code and its serialized operands, in
call order. -/
lemma foldl_d_cmds (calls : List (String × List PyNum)) (p : Path) :
    (calls.foldl (fun acc c => acc._d c.1 c.2) p).cmds
      = p.cmds ++ (calls.map fun c => c.1 :: c.2.map pyNumStr).flatten := by
  induction calls generalizing p with
  | nil => simp
  | cons c cs ih =>
    rw [List.foldl_cons, ih]
    simp [Path._d]

/-- C1 counterexample: the spec example uses the Python call
`M(1,2).L(3.456,4)`, whose coordinate literals `1`, `2`, `4` are Python
ints; `Path._d` serializes an int by plain `str`, so the result is
"M 1 2 L 3.46 4" and not "M 1.0 2.0 L 3.46 4.0". -/
theorem C1_counterexample :
    ((Path.empty.M (.pint 1) (.pint 2)).L (.pfloat 3.456) (.pint 4)).d
      = "M 1 2 L 3.46 4" ∧
    ((Path.empty.M (.pint 1) (.pint 2)).L (.pfloat 3.456) (.pint 4)).d
      ≠ "M 1.0 2.0 L 3.46 4.0" := by
  have h : roundHalfToEven ((3.456 : ℚ) * 100) = 346 := by
    norm_num [roundHalfToEven]
  constructor
  · simp [Path.M, Path.L, Path._d, Path.empty, Path.d, pyNumStr, h]
    decide
  · simp [Path.M, Path.L, Path._d, Path.empty, Path.d, pyNumStr, h]
    decide

/-- C1 (amended): serializing a path is deterministic (`d` is a pure
function of the accumulated token list and never mutates it), and the
string equals the command codes and operands — floats rounded to two
decimals, ints rendered unchanged — joined by single spaces in call order.
With float literals, `M(1.0,2.0).L(3.456,4.0)` serializes to
"M 1.0 2.0 L 3.46 4.0"; with the int literals of the spec example the
result is "M 1 2 L 3.46 4". -/
theorem C1_serialization :
    (∀ p : Path, p.d = p.d) ∧
    (∀ calls : List (String × List PyNum),
      (calls.foldl (fun acc c => acc._d c.1 c.2) Path.empty).d
        = String.intercalate " "
            ((calls.map fun c => c.1 :: c.2.map pyNumStr).flatten)) ∧
    ((Path.empty.M (.pfloat 1) (.pfloat 2)).L (.pfloat 3.456) (.pfloat 4)).d
      = "M 1.0 2.0 L 3.46 4.0" ∧
    ((Path.empty.M (.pint 1) (.pint 2)).L (.pfloat 3.456) (.pint 4)).d
      = "M 1 2 L 3.46 4" := by
  have h1 : roundHalfToEven ((1 : ℚ) * 100) = 100 := by
    norm_num [roundHalfToEven]
  have h2 : roundHalfToEven ((2 : ℚ) * 100) = 200 := by
    norm_num [roundHalfToEven]
  have h3 : roundHalfToEven ((3.456 : ℚ) * 100) = 346 := by
    norm_num [roundHalfToEven]
  have h4 : roundHalfToEven ((4 : ℚ) * 100) = 400 := by
    norm_num [roundHalfToEven]
  refine ⟨fun p => rfl, ?_, ?_, ?_⟩
  · intro calls
    rw [Path.d, foldl_d_cmds]
    simp [Path.empty]
  · simp [Path.M, Path.L, Path._d, Path.empty, Path.d, pyNumStr, h1, h2, h3, h4]
    decide
  · simp [Path.M, Path.L, Path._d, Path.empty, Path.d, pyNumStr, h3]
    decide

/-- C2 counterexample: the turtle constructor emits no initial moveto, so
`pd(); f(10)` from the origin yields "L 10.0 0.0", while the builder
sequence `M(0,0).L(10,0)` yields "M 0 0 L 10 0" with int literals and
"M 0.0 0.0 L 10.0 0.0" with float literals — different from the turtle
output either way. -/
theorem C2_counterexample :
    ((turtle0 0 0).pd.f 10).d = "L 10.0 0.0" ∧
    ((Path.empty.M (.pint 0) (.pint 0)).L (.pint 10) (.pint 0)).d
      = "M 0 0 L 10 0" ∧
    ((Path.empty.M (.pfloat 0) (.pfloat 0)).L (.pfloat 10) (.pfloat 0)).d
      = "M 0.0 0.0 L 10.0 0.0" ∧
    ((turtle0 0 0).pd.f 10).d
      ≠ ((Path.empty.M (.pint 0) (.pint 0)).L (.pint 10) (.pint 0)).d ∧
    ((turtle0 0 0).pd.f 10).d
      ≠ ((Path.empty.M (.pfloat 0) (.pfloat 0)).L (.pfloat 10) (.pfloat 0)).d := by
  have r10 : roundHalfToEven ((10 : ℚ) * 100) = 1000 := by
    norm_num [roundHalfToEven]
  have r0 : roundHalfToEven ((0 : ℚ) * 100) = 0 := by
    norm_num [roundHalfToEven]
  have ht : ((turtle0 0 0).pd.f 10).d = "L 10.0 0.0" := by
    simp [turtle0, Turtle.mkInit, Turtle.pd, Turtle.f, Turtle._move,
      Turtle._draw, Vec.add, Vec.smul, Turtle.d, Path.d, Path.L, Path._d,
      Path.empty, pyNumStr, r10, r0]
    decide
  have hp1 : ((Path.empty.M (.pint 0) (.pint 0)).L (.pint 10) (.pint 0)).d
      = "M 0 0 L 10 0" := by
    simp [Path.M, Path.L, Path._d, Path.empty, Path.d, pyNumStr]
    decide
  have hp2 : ((Path.empty.M (.pfloat 0) (.pfloat 0)).L (.pfloat 10) (.pfloat 0)).d
      = "M 0.0 0.0 L 10.0 0.0" := by
    simp [Path.M, Path.L, Path._d, Path.empty, Path.d, pyNumStr, r10, r0]
    decide
  refine ⟨ht, hp1, hp2, ?_, ?_⟩
  · rw [ht, hp1]; decide
  · rw [ht, hp2]; decide

/-- C2 (amended): a turtle at the origin with heading 0 degrees, after
`pd(); f(10)`, produces the same path data as a `Path` builder given only
`L(10.0, 0.0)`: the constructor emits no initial moveto, so no `M`
command precedes the line. -/
theorem C2_turtle_path_equiv :
    ((turtle0 0 0).pd.f 10).d = (Path.empty.L (.pfloat 10) (.pfloat 0)).d := by
  have r10 : roundHalfToEven ((10 : ℚ) * 100) = 1000 := by
    norm_num [roundHalfToEven]
  have r0 : roundHalfToEven ((0 : ℚ) * 100) = 0 := by
    norm_num [roundHalfToEven]
  simp [turtle0, Turtle.mkInit, Turtle.pd, Turtle.f, Turtle._move,
    Turtle._draw, Vec.add, Vec.smul, Turtle.d, Path.d, Path.L, Path._d,
    Path.empty, pyNumStr, r10, r0]

/-- Helper: one forward move appends exactly three tokens (one command code
and two operands) to the path. -/
lemma f_cmds_length (t : Turtle) (d : ℚ) :
    ((t.f d)._path.cmds).length = t._path.cmds.length + 3 := by
  by_cases h : t._pd <;>
    simp [Turtle.f, Turtle._move, Turtle._draw, h, Path.L, Path.M, Path._d]

/-- Helper: a sequence of forward moves appends three tokens per move. -/
lemma foldl_f_length (ds : List ℚ) (s : Turtle) :
    ((ds.foldl Turtle.f s)._path.cmds).length
      = s._path.cmds.length + 3 * ds.length := by
  induction ds generalizing s with
  | nil => simp
  | cons d ds ih =>
    rw [List.foldl_cons, ih, f_cmds_length]
    simp [List.length_cons]
    ring

/-- C3: `f(distance)` sets the position to `position + heading * distance`,
leaves heading and pen state unchanged, and appends exactly one path
command at the new position — `L` if the pen is down, `M` otherwise;
`b(distance)` is `f(-distance)`; and over any sequence of moves the number
of emitted commands (three tokens each) equals the number of position
changes, regardless of pen state. -/
theorem C3_forward (t : Turtle) (distance : ℚ) :
    (t.f distance)._p = t._p.add (t._a.smul distance) ∧
    (t.f distance)._a = t._a ∧
    (t.f distance)._pd = t._pd ∧
    (t.f distance)._path.cmds
      = t._path.cmds ++
        [(if t._pd then "L" else "M"),
         pyNumStr (.pfloat (t._p.add (t._a.smul distance)).x),
         pyNumStr (.pfloat (t._p.add (t._a.smul distance)).y)] ∧
    t.b distance = t.f (-distance) ∧
    ∀ (s : Turtle) (ds : List ℚ),
      ((ds.foldl Turtle.f s)._path.cmds).length
        = s._path.cmds.length + 3 * ds.length := by
  refine ⟨?_, ?_, ?_, ?_, rfl, fun s ds => foldl_f_length ds s⟩ <;>
    by_cases h : t._pd <;>
      simp [Turtle.f, Turtle._move, Turtle._draw, h, Path.L, Path.M, Path._d]

/-- C4: rotating `(1,0)` by `pi/2` yields exactly `(0,1)` in the real
model, rotating by `0` is the identity, and rotation composes:
`rotate a` then `rotate b` equals `rotate (a+b)`; `rotate` is computed as
`cos a * self + sin a * perp` with `perp = (-y, x)`. -/
theorem C4_rotate :
    (VecR.mk 1 0).rotate (Real.pi / 2) = VecR.mk 0 1 ∧
    (∀ v : VecR, v.rotate 0 = v) ∧
    ∀ (v : VecR) (a b : ℝ), (v.rotate a).rotate b = v.rotate (a + b) := by
  refine ⟨?_, ?_, ?_⟩
  · ext <;> simp [VecR.rotate]
  · intro v
    ext <;> simp [VecR.rotate]
  · intro v a b
    ext <;> simp [VecR.rotate, Real.cos_add, Real.sin_add] <;> ring

/-- C9 counterexample: on a freshly constructed turtle, `pu(close=True)`
emits a `Z` path command although no position-changing operation (`f`, `b`
or `p`) has run and the position is unchanged, so the first path command
does not appear only after the first position change. -/
theorem C9_counterexample :
    ((Turtle.mkInit 0 0 1 0).pu true)._path.cmds = ["Z"] ∧
    ((Turtle.mkInit 0 0 1 0).pu true).d = "Z" ∧
    ((Turtle.mkInit 0 0 1 0).pu true)._p = (Turtle.mkInit 0 0 1 0)._p := by
  refine ⟨rfl, ?_, rfl⟩
  decide

/-- C9 (amended): a freshly constructed turtle has an empty path — `d()`
returns the empty string because construction emits no initial moveto —
and the path stays empty under `pd()` and `pu(False)`; the first path
command appears only after a position-changing operation (`f`, `b`, `p`)
or after `pu` with a truthy close flag, which emits `Z` without a position
change. -/
theorem C9_fresh_turtle (x y hx hy : ℚ) :
    (Turtle.mkInit x y hx hy).d = "" ∧
    (Turtle.mkInit x y hx hy)._path.cmds = [] ∧
    ((Turtle.mkInit x y hx hy).pd)._path.cmds = [] ∧
    ((Turtle.mkInit x y hx hy).pu false)._path.cmds = [] ∧
    ((Turtle.mkInit x y hx hy).pu true)._path.cmds = ["Z"] :=
  ⟨rfl, rfl, rfl, rfl, rfl⟩

/-- C10: an int operand is serialized by plain `str` with no decimal point
(`M(1,2)` contributes "M 1 2"), a float operand is rounded to two decimal
digits (`3.456` becomes "3.46"), and the boolean arc flags of `A` are
serialized as the literals `1` and `0`. -/
theorem C10_operand_formatting :
    (∀ (p : Path) (n m : ℤ),
      (p.M (.pint n) (.pint m)).cmds = p.cmds ++ ["M", toString n, toString m]) ∧
    (Path.empty.M (.pint 1) (.pint 2)).d = "M 1 2" ∧
    pyNumStr (.pfloat 3.456) = "3.46" ∧
    pyNumStr (.pint 3) = "3" ∧
    ∀ (p : Path) (rx ry rot x y : PyNum),
      (p.A rx ry rot true false x y).cmds
        = p.cmds ++ ["A", pyNumStr rx, pyNumStr ry, pyNumStr rot, "1", "0",
            pyNumStr x, pyNumStr y] := by
  have h3 : roundHalfToEven ((3.456 : ℚ) * 100) = 346 := by
    norm_num [roundHalfToEven]
  have t1 : toString (1 : ℤ) = "1" := by decide
  have t0 : toString (0 : ℤ) = "0" := by decide
  refine ⟨?_, ?_, ?_, by decide, ?_⟩
  · intro p n m
    simp [Path.M, Path._d, pyNumStr]
  · simp [Path.M, Path._d, Path.empty, Path.d, pyNumStr]
    decide
  · simp [pyNumStr, h3]
    decide
  · intro p rx ry rot x y
    simp [Path.A, Path._d, pyNumStr, t1, t0]

/-- C5: `scene` returns a table whose column string is exactly "d o", with
one row per keyword in insertion order; each row keeps its key, its base
column `d` is the JSON encoding of the element attributes and its override
column `o` is initialized to the empty string. -/
theorem C5_scene (kwargs : List (String × Expando)) :
    (scene kwargs).fields = "d o" ∧
    (scene kwargs).rows.map Prod.fst = kwargs.map Prod.fst ∧
    ∀ i : ℕ, (scene kwargs).rows[i]?
      = (kwargs[i]?).map fun kv =>
          (kv.1, ⟨jsonDumps (expando_to_dict kv.2), ""⟩) := by
  refine ⟨rfl, ?_, ?_⟩
  · show (kwargs.map fun kv =>
        (kv.1, (⟨jsonDumps (expando_to_dict kv.2), ""⟩ : Row))).map Prod.fst
      = kwargs.map Prod.fst
    induction kwargs with
    | nil => rfl
    | cons kv rest ih =>
      simp only [List.map_cons]
      rw [ih]
  · intro i
    simp [scene, List.getElem?_map]

/-- Helper: resetting a key under which every override is already empty
leaves the row list unchanged. -/
lemma reset_map_of_empty (l : List (String × Row)) (k : String)
    (h : ∀ r ∈ l, r.1 = k → r.2.o = "") :
    (l.map fun r => if r.1 == k then (r.1, Row.mk r.2.d "") else r) = l := by
  induction l with
  | nil => rfl
  | cons r rest ih =>
    have hrest : ∀ x ∈ rest, x.1 = k → x.2.o = "" :=
      fun x hm => h x (List.mem_cons_of_mem _ hm)
    obtain ⟨a, rd, ro⟩ := r
    by_cases hk : a = k
    · have ho : ro = "" := h (a, ⟨rd, ro⟩) (List.mem_cons_self _ _) hk
      subst ho
      simp only [List.map_cons]
      rw [ih hrest]
      simp [hk]
    · simp only [List.map_cons]
      rw [ih hrest]
      simp [hk]

/-- Helper: resetting a key right after drawing on the same key is the same
row transformation as resetting alone. -/
lemma reset_comp_draw (k : String) (s : String) :
    ((fun r : String × Row =>
        if r.1 == k then (r.1, Row.mk r.2.d "") else r) ∘
      fun r : String × Row =>
        if r.1 == k then (r.1, Row.mk r.2.d s) else r)
      = fun r : String × Row =>
          if r.1 == k then (r.1, Row.mk r.2.d "") else r := by
  funext r
  by_cases hk : r.1 = k
  · simp [Function.comp, hk]
  · simp [Function.comp, hk]

/-- Helper: the `reset` row transformation is idempotent. -/
lemma reset_comp_reset (k : String) :
    ((fun r : String × Row =>
        if r.1 == k then (r.1, Row.mk r.2.d "") else r) ∘
      fun r : String × Row =>
        if r.1 == k then (r.1, Row.mk r.2.d "") else r)
      = fun r : String × Row =>
          if r.1 == k then (r.1, Row.mk r.2.d "") else r :=
  reset_comp_draw k ""

/-- C6: for a reference into a scene whose override column is empty at the
referenced key, `draw` followed by `reset` restores the table exactly to
its pre-`draw` state, and `reset` is idempotent. -/
theorem C6_draw_reset (t : Data) (k : String) (kwargs : List (String × AttrVal))
    (h : ∀ r ∈ t.rows, r.1 = k → r.2.o = "") :
    (reset (draw t k kwargs).1 k).1 = t ∧
    ∀ (u : Data) (j : String), (reset (reset u j).1 j).1 = (reset u j).1 := by
  constructor
  · obtain ⟨fs, rows⟩ := t
    simp only [draw, reset, Data.mk.injEq, true_and]
    rw [List.map_map, reset_comp_draw]
    exact reset_map_of_empty rows k h
  · intro u j
    obtain ⟨fs, rows⟩ := u
    simp only [draw, reset, Data.mk.injEq, true_and]
    rw [List.map_map, reset_comp_reset]

/-- Concrete two-element scene used to instantiate the hypotheses of the
scene-mutation theorems. -/
def exScene : Data := scene [("a", circle []), ("b", rect [])]

/-- C6 witness: the hypothesis and the conclusion of `C6_draw_reset`
evaluated on a concrete two-row scene at key "a". -/
theorem C6_witness :
    (∀ r ∈ exScene.rows, r.1 = "a" → r.2.o = "") ∧
    ((reset (draw exScene "a" [("x", .i 1)]).1 "a").1 = exScene ∧
      ∀ (u : Data) (j : String), (reset (reset u j).1 j).1 = (reset u j).1) :=
  ⟨by decide, C6_draw_reset exScene "a" [("x", .i 1)] (by decide)⟩

/-- Helper: `draw` keeps every row key. -/
lemma draw_rows_fst (l : List (String × Row)) (k : String) (s : String) :
    ((l.map fun r => if r.1 == k then (r.1, Row.mk r.2.d s) else r).map
        Prod.fst) = l.map Prod.fst := by
  induction l with
  | nil => rfl
  | cons r rest ih =>
    obtain ⟨a, rd, ro⟩ := r
    simp only [List.map_cons]
    rw [ih]
    by_cases hk : a = k
    · simp [hk]
    · simp [hk]

/-- Helper: `draw` keeps every base-attributes column. -/
lemma draw_rows_d (l : List (String × Row)) (k : String) (s : String) :
    ((l.map fun r => if r.1 == k then (r.1, Row.mk r.2.d s) else r).map
        fun r => r.2.d) = l.map fun r => r.2.d := by
  induction l with
  | nil => rfl
  | cons r rest ih =>
    obtain ⟨a, rd, ro⟩ := r
    simp only [List.map_cons]
    rw [ih]
    by_cases hk : a = k
    · simp [hk]
    · simp [hk]

/-- C7: `draw` returns the reference unchanged, keeps the column string,
every row key and every base-attributes column unchanged, leaves every row
with a different key untouched, and writes exactly the JSON serialization
of the attributes into the override column of the referenced row. -/
theorem C7_draw_frame (t : Data) (k : String) (kwargs : List (String × AttrVal)) :
    (draw t k kwargs).2 = k ∧
    (draw t k kwargs).1.fields = t.fields ∧
    (draw t k kwargs).1.rows.map Prod.fst = t.rows.map Prod.fst ∧
    ((draw t k kwargs).1.rows.map fun r => r.2.d)
      = (t.rows.map fun r => r.2.d) ∧
    (∀ (i : ℕ) (r : String × Row), t.rows[i]? = some r → r.1 ≠ k →
      (draw t k kwargs).1.rows[i]? = some r) ∧
    ∀ (i : ℕ) (r : String × Row), t.rows[i]? = some r → r.1 = k →
      (draw t k kwargs).1.rows[i]?
        = some (r.1, ⟨r.2.d, jsonDumps kwargs⟩) := by
  refine ⟨rfl, rfl, draw_rows_fst t.rows k _, draw_rows_d t.rows k _, ?_, ?_⟩
  · intro i r hr hne
    simp [draw, List.getElem?_map, hr, hne]
  · intro i r hr hk
    simp [draw, List.getElem?_map, hr, hk]

/-- C7 witness: the frame conditions of `C7_draw_frame` evaluated on a
concrete two-row scene, drawing on key "b" and checking the untouched row
"a". -/
theorem C7_witness :
    exScene.rows[0]? = some ("a", ⟨"\x7b\"_t\": \"c\"\x7d", ""⟩) ∧
    ("a" : String) ≠ "b" ∧
    (draw exScene "b" [("x", .i 1)]).1.rows[0]?
      = some ("a", ⟨"\x7b\"_t\": \"c\"\x7d", ""⟩) :=
  ⟨by decide, by decide,
    (C7_draw_frame exScene "b" [("x", .i 1)]).2.2.2.2.1 0
      ("a", ⟨"\x7b\"_t\": \"c\"\x7d", ""⟩) (by decide) (by decide)⟩

/-- Helper: after `d[k] = v`, looking up `k` yields `v` — whether the key
was replaced in place or appended. -/
lemma dictGet_dictSet (d : List (String × AttrVal)) (k : String) (v : AttrVal) :
    dictGet (dictSet d k v) k = some v := by
  induction d with
  | nil => simp [dictSet, dictGet]
  | cons kv rest ih =>
    by_cases hk : kv.1 = k
    · simp [dictSet, dictGet, hk]
    · simp [dictSet, dictGet, hk, ih]

/-- Helper: the type of an element built by `_el` is the lookup of its
discriminator in the `_element_types` table. -/
lemma type_of_el (tag : String) (d : List (String × AttrVal)) :
    type_of (_el tag d) = _element_types.lookup tag := by
  simp [type_of, _el, dictGet_dictSet]

/-- C8: each of the ten shape constructors yields an element whose
`type_of` is the human-readable kind name of that shape, and an element
whose discriminator is not one of the ten recognized codes gets `none`
(an absence value) from `type_of` rather than a failure. -/
theorem C8_type_of (kwargs : List (String × AttrVal)) (r1 r2 a1 a2 : AttrVal)
    (content : String) :
    type_of (arc r1 r2 a1 a2 kwargs) = some "arc" ∧
    type_of (circle kwargs) = some "circle" ∧
    type_of (ellipse kwargs) = some "ellipse" ∧
    type_of (image kwargs) = some "image" ∧
    type_of (line kwargs) = some "line" ∧
    type_of (path kwargs) = some "path" ∧
    type_of (polygon kwargs) = some "polygon" ∧
    type_of (polyline kwargs) = some "polyline" ∧
    type_of (rect kwargs) = some "rect" ∧
    type_of (text content kwargs) = some "text" ∧
    ∀ (attrs : List (String × AttrVal)) (tag : String),
      dictGet attrs "_t" = some (.s tag) →
      tag ∉ ["a", "c", "e", "i", "l", "p", "pg", "pl", "r", "t"] →
      type_of ⟨attrs⟩ = none := by
  refine ⟨?_, ?_, ?_, ?_, ?_, ?_, ?_, ?_, ?_, ?_, ?_⟩
  · rw [arc, type_of_el]; decide
  · rw [circle, type_of_el]; decide
  · rw [ellipse, type_of_el]; decide
  · rw [image, type_of_el]; decide
  · rw [line, type_of_el]; decide
  · rw [path, type_of_el]; decide
  · rw [polygon, type_of_el]; decide
  · rw [polyline, type_of_el]; decide
  · rw [rect, type_of_el]; decide
  · rw [text, type_of_el]; decide
  · intro attrs tag hget hmem
    simp only [List.mem_cons, List.not_mem_nil, or_false, not_or] at hmem
    obtain ⟨h1, h2, h3, h4, h5, h6, h7, h8, h9, h10⟩ := hmem
    simp [type_of, hget, _element_types, List.lookup, beq_eq_decide,
      h1, h2, h3, h4, h5, h6, h7, h8, h9, h10]

/-- C8 witness: the hypotheses and conclusion of the unrecognized branch of
`C8_type_of` at the concrete discriminator "zz", together with one
recognized constructor. -/
theorem C8_witness :
    dictGet [("_t", AttrVal.s "zz")] "_t" = some (.s "zz") ∧
    ("zz" : String) ∉ ["a", "c", "e", "i", "l", "p", "pg", "pl", "r", "t"] ∧
    type_of ⟨[("_t", AttrVal.s "zz")]⟩ = none ∧
    type_of (circle []) = some "circle" :=
  ⟨by decide, by decide,
    (C8_type_of [] (.i 0) (.i 0) (.i 0) (.i 0) "x").2.2.2.2.2.2.2.2.2.2
      [("_t", AttrVal.s "zz")] "zz" (by decide) (by decide),
    (C8_type_of [] (.i 0) (.i 0) (.i 0) (.i 0) "x").2.1⟩

end TS
